import Mathlib

/-!
Verification of the `chi_operator.network` module: a shallow embedding of the
`network delete` (teardown), `network segments` (segment report) and
`network ips` (public IP audit) commands, together with a model of the
Neutron/Blazar backing state they operate on.

IPv4 addresses are modelled as natural numbers (the numeric value of the
address); OpenStack resource identifiers are strings.
-/

namespace ChiOperator

/-- A Neutron network as seen by the commands: `provider:segmentation_id`
is optional (flat networks carry `None`), and `subnets` is the list of
subnet identifiers attached to the network. -/
structure Network where
  id : String
  name : String
  segmentationId : Option Int
  physicalNetwork : String
  projectId : String
  subnetIds : List String
deriving DecidableEq, Repr

/-- A Neutron port: `fixedIps` is the ordered `fixed_ips` list (each entry's
`ip_address`, as a numeric IPv4 value). -/
structure Port where
  id : String
  networkId : String
  deviceId : String
  deviceOwner : String
  fixedIps : List Nat
  projectId : String
deriving DecidableEq, Repr

/-- A Neutron subnet with its allocation pools (inclusive start/end pairs). -/
structure Subnet where
  id : String
  networkId : String
  allocationPools : List (Nat × Nat)
deriving DecidableEq, Repr

/-- A Neutron router. -/
structure Router where
  id : String
  projectId : String
deriving DecidableEq, Repr

/-- The backing state visible through the Neutron and Blazar clients.
`reservedIps` is the list of Blazar floating-IP reservations. -/
structure St where
  networks : List Network
  subnets : List Subnet
  ports : List Port
  routers : List Router
  reservedIps : List Nat
deriving DecidableEq, Repr

/-- The error taxonomy: the three `ValueError` sites of the commands
(missing selector, not-found, running instances), passthrough API errors
(404s raised by the client on absent resources), the `IndexError` from
`fixed_ips[0]`, and the `ValueError` from `summarize_address_range`. -/
inductive Err where
  | inputError
  | notFound
  | conflict
  | apiError
  | indexError
  | valueError
deriving DecidableEq, Repr

/-! ### Neutron client operations (external collaborator model) -/

/-- `list_networks(provider:segmentation_id=seg)`. -/
def listNetworksBySegment (st : St) (seg : Int) : List Network :=
  st.networks.filter (fun n => decide (n.segmentationId = some seg))

/-- `get_network(nid)`: fetch by ID, 404 if absent. -/
def getNetwork (st : St) (nid : String) : Except Err Network :=
  match st.networks.find? (fun n => decide (n.id = nid)) with
  | some n => .ok n
  | none => .error .apiError

/-- `remove_interface_router(rid, {port_id: pid})`: 404 unless the router
exists and `pid` is one of its ports; on success the interface port is
deleted. -/
def removeInterfaceRouter (rid pid : String) (st : St) : Except Err St :=
  if st.routers.any (fun r => decide (r.id = rid)) then
    if st.ports.any (fun p => decide (p.id = pid ∧ p.deviceId = rid)) then
      .ok { st with ports := st.ports.filter (fun p => decide (¬ p.id = pid)) }
    else .error .apiError
  else .error .apiError

/-- `delete_subnet(sid)`: 404 if absent. -/
def deleteSubnet (sid : String) (st : St) : Except Err St :=
  if st.subnets.any (fun s => decide (s.id = sid)) then
    .ok { st with subnets := st.subnets.filter (fun s => decide (¬ s.id = sid)) }
  else .error .apiError

/-- `delete_network(nid)`: 404 if absent. -/
def deleteNetwork (nid : String) (st : St) : Except Err St :=
  if st.networks.any (fun n => decide (n.id = nid)) then
    .ok { st with networks := st.networks.filter (fun n => decide (¬ n.id = nid)) }
  else .error .apiError

/-- `remove_gateway_router(rid)`: 404 if the router is absent; on success the
router's gateway ports are removed. -/
def removeGatewayRouter (rid : String) (st : St) : Except Err St :=
  if st.routers.any (fun r => decide (r.id = rid)) then
    .ok { st with ports := (st.ports.filter
      (fun p => decide (¬ (p.deviceId = rid ∧ p.deviceOwner = "network:router_gateway")))) }
  else .error .apiError

/-- `delete_router(rid)`: 404 if absent. -/
def deleteRouter (rid : String) (st : St) : Except Err St :=
  if st.routers.any (fun r => decide (r.id = rid)) then
    .ok { st with routers := st.routers.filter (fun r => decide (¬ r.id = rid)) }
  else .error .apiError

/-- `show_subnet(sid)`: 404 if absent. -/
def showSubnet (st : St) (sid : String) : Except Err Subnet :=
  match st.subnets.find? (fun s => decide (s.id = sid)) with
  | some s => .ok s
  | none => .error .apiError

/-- `show_router(rid)`: 404 if absent. -/
def showRouter (st : St) (rid : String) : Except Err Router :=
  match st.routers.find? (fun r => decide (r.id = rid)) with
  | some r => .ok r
  | none => .error .apiError

/-! ### `network delete` (NetworkDeleteCommand.run) -/

/-- Device-owner classification of a router interface port. -/
def routerInterfaceOwner : String := "network:router_interface"

/-- `_find_network`: query networks by segmentation ID and take the first
match; `ValueError` if none. -/
def findNetworkBySegment (st : St) (seg : Int) : Except Err Network :=
  match listNetworksBySegment st seg with
  | [] => .error .notFound
  | n :: _ => .ok n

/-- Lines 32-39 of `NetworkDeleteCommand.run`: resolve the target network
from the `--segment` / `--network` selectors. The segment branch is taken
whenever a segment is supplied, regardless of the network argument. -/
def resolveTarget (segment : Option Int) (network : Option String) (st : St) :
    Except Err Network :=
  match segment with
  | some seg => findNetworkBySegment st seg
  | none =>
    match network with
    | some nid => getNetwork st nid
    | none => .error .inputError

/-- `_list_for_network(neutron, network, "ports")`. -/
def portsForNetwork (st : St) (nid : String) : List Port :=
  st.ports.filter (fun p => decide (p.networkId = nid))

/-- `_list_for_network(neutron, network, "subnets")`. -/
def subnetsForNetwork (st : St) (nid : String) : List Subnet :=
  st.subnets.filter (fun s => decide (s.networkId = nid))

/-- The router-interface ports of the target network (lines 48-51). -/
def routerPortsOf (st : St) (nid : String) : List Port :=
  (portsForNetwork st nid).filter (fun p => decide (p.deviceOwner = routerInterfaceOwner))

/-- The detach loop (lines 54-58): remove each router-interface port from its
owning router, stopping at the first client error. -/
def detachPorts : List Port → St → Option Err × St
  | [], st => (none, st)
  | p :: rest, st =>
    match removeInterfaceRouter p.deviceId p.id st with
    | .error e => (some e, st)
    | .ok st' => detachPorts rest st'

/-- The subnet deletion loop (lines 62-64). -/
def deleteSubnets : List Subnet → St → Option Err × St
  | [], st => (none, st)
  | s :: rest, st =>
    match deleteSubnet s.id st with
    | .error e => (some e, st)
    | .ok st' => deleteSubnets rest st'

/-- The router garbage-collection loop (lines 69-79): for each detached
router-interface port, re-list ports on its router with the same device
owner; if none remain, remove the router's gateway and delete the router. -/
def gcRouters : List Port → St → Option Err × St
  | [], st => (none, st)
  | p :: rest, st =>
    let others := st.ports.filter
      (fun q => decide (q.deviceId = p.deviceId ∧ q.deviceOwner = p.deviceOwner))
    if others = [] then
      match removeGatewayRouter p.deviceId st with
      | .error e => (some e, st)
      | .ok st' =>
        match deleteRouter p.deviceId st' with
        | .error e => (some e, st')
        | .ok st'' => gcRouters rest st''
    else gcRouters rest st

/-- Lines 42-79 of `NetworkDeleteCommand.run`, after target resolution:
abort on compute ports, detach router interfaces, delete subnets, delete the
network, garbage-collect routers. The result pairs the raised error (if any)
with the backing state at that point. -/
def teardownNet (n : Network) (st : St) : Option Err × St :=
  let ports := portsForNetwork st n.id
  if ports.any (fun p => decide (p.deviceOwner = "compute:nova")) then
    (some .conflict, st)
  else
    let routerPorts := routerPortsOf st n.id
    match detachPorts routerPorts st with
    | (some e, st') => (some e, st')
    | (none, st₁) =>
      match deleteSubnets (subnetsForNetwork st₁ n.id) st₁ with
      | (some e, st') => (some e, st')
      | (none, st₂) =>
        match deleteNetwork n.id st₂ with
        | .error e => (some e, st₂)
        | .ok st₃ => gcRouters routerPorts st₃

/-- `NetworkDeleteCommand.run(segment, network)`. -/
def teardown (segment : Option Int) (network : Option String) (st : St) :
    Option Err × St :=
  match resolveTarget segment network st with
  | .error e => (some e, st)
  | .ok n => teardownNet n st

/-! ### `network segments` (NetworkSegmentStatusCommand.run) -/

/-- The sort key of line 117-119: `x.get("provider:segmentation_id") or -1`.
Python truthiness makes both `None` and `0` fall back to `-1`. -/
def sortKey (n : Network) : Int :=
  match n.segmentationId with
  | none => -1
  | some v => if v = 0 then -1 else v

/-- `str(n["provider:segmentation_id"])`. -/
def segStr : Option Int → String
  | none => "None"
  | some v => toString v

/-- One data row of the segment report (lines 122-127). -/
def netRow (n : Network) : List String :=
  [n.physicalNetwork, segStr n.segmentationId, n.name, n.projectId]

/-- The header row of the segment report. -/
def segmentHeader : List String :=
  ["physical_network", "segmentation_id", "name", "project_id"]

/-- `sorted(networks, key=sort_key)`: a stable sort by `sortKey`, matching
Python's stable `sorted`. -/
def sortedNetworks (st : St) : List Network :=
  st.networks.insertionSort (fun a b => sortKey a ≤ sortKey b)

/-- `NetworkSegmentStatusCommand.run`: the rows of the report, header first,
one data row per network in sorted order. -/
def listSegments (st : St) : List (List String) :=
  segmentHeader :: (sortedNetworks st).map netRow

/-! ### `network ips` (NetworkPublicIPStatusCommand.run) -/

/-- Device-owner classification of a floating-IP port. -/
def floatingipOwner : String := "network:floatingip"

/-- Device-owner classification of a router gateway port. -/
def routerGatewayOwner : String := "network:router_gateway"

/-- Lines 178-184: keep only floating-IP and router-gateway ports. -/
def publicPorts (st : St) : List Port :=
  st.ports.filter
    (fun p => decide (p.deviceOwner = floatingipOwner ∨ p.deviceOwner = routerGatewayOwner))

/-- Lines 185-188: the `ports_by_ip` dict comprehension, keying each kept
port by `fixed_ips[0]`; the unguarded index raises `IndexError` on a port
with no fixed IPs. Entries are kept in iteration order. -/
def portsByIp : List Port → Except Err (List (Nat × Port))
  | [] => .ok []
  | p :: rest =>
    match p.fixedIps with
    | [] => .error .indexError
    | ip :: _ => (portsByIp rest).map (fun l => (ip, p) :: l)

/-- Python dict lookup over the association list built by `portsByIp`:
a later binding of the same key overwrites an earlier one. -/
def dictGet (k : Nat) : List (Nat × Port) → Option Port
  | [] => none
  | e :: rest =>
    match dictGet k rest with
    | some q => some q
    | none => if e.1 = k then some e.2 else none

/-- The subnet loop of `_public_allocation_pools` (lines 158-160). -/
def collectPools (st : St) : List String → Except Err (List (Nat × Nat))
  | [] => .ok []
  | sid :: rest =>
    match showSubnet st sid with
    | .error e => .error e
    | .ok s => (collectPools st rest).map (fun l => s.allocationPools ++ l)

/-- `_public_allocation_pools`: find the network named "public" (error if
none), error if it lists no subnets, else gather every subnet's pools. -/
def publicAllocationPools (st : St) : Except Err (List (Nat × Nat)) :=
  match st.networks.filter (fun n => decide (n.name = "public")) with
  | [] => .error .notFound
  | pn :: _ =>
    match pn.subnetIds with
    | [] => .error .notFound
    | _ :: _ => collectPools st pn.subnetIds

/-- Lines 196-199: expand one allocation pool into every address from start
to end inclusive; `summarize_address_range` raises `ValueError` when the end
precedes the start. -/
def expandPool (p : Nat × Nat) : Except Err (List Nat) :=
  if p.2 < p.1 then .error .valueError
  else .ok (List.range' p.1 (p.2 + 1 - p.1))

/-- The pool expansion loop building the tail of `all_addresses`. -/
def expandPools : List (Nat × Nat) → Except Err (List Nat)
  | [] => .ok []
  | p :: rest =>
    match expandPool p with
    | .error e => .error e
    | .ok l => (expandPools rest).map (fun r => l ++ r)

/-- One output row of the public IP audit. `reservable` is the boolean whose
`str(...)` is printed; `publicIp` the address whose `str(...)` is printed. -/
structure Row where
  publicIp : Nat
  allocationType : String
  reservable : Bool
  projectId : String
deriving DecidableEq, Repr

/-- Lookup in the per-run router memoization dict (`routers` at line 167). -/
def cacheGet (rid : String) (cache : List (String × Router)) : Option Router :=
  (cache.find? (fun e => decide (e.1 = rid))).map (fun e => e.2)

/-- The per-address loop (lines 211-236): classify each candidate address,
fetching (and caching) the owning router of a gateway port to resolve its
project. -/
def processAddrs (st : St) (dict : List (Nat × Port)) :
    List Nat → List (String × Router) → Except Err (List Row)
  | [], _ => .ok []
  | ip :: rest, cache =>
    let reservable := decide (ip ∈ st.reservedIps)
    match dictGet ip dict with
    | none =>
      (processAddrs st dict rest cache).map
        (fun rs => ⟨ip, "unallocated", reservable, "none"⟩ :: rs)
    | some port =>
      if port.deviceOwner = routerGatewayOwner then
        match cacheGet port.deviceId cache with
        | some rt =>
          (processAddrs st dict rest cache).map
            (fun rs => ⟨ip, "gateway", reservable, rt.projectId⟩ :: rs)
        | none =>
          match showRouter st port.deviceId with
          | .error e => .error e
          | .ok rt =>
            (processAddrs st dict rest ((port.deviceId, rt) :: cache)).map
              (fun rs => ⟨ip, "gateway", reservable, rt.projectId⟩ :: rs)
      else
        (processAddrs st dict rest cache).map
          (fun rs => ⟨ip, "floating_ip", reservable, port.projectId⟩ :: rs)

/-- `NetworkPublicIPStatusCommand.run`: build the port index (IndexError
possible), fetch and expand the public allocation pools, then process
`sorted(all_addresses)` where `all_addresses` is the reserved list followed
by the expanded pools (no de-duplication). -/
def auditPublicIPs (st : St) : Except Err (List Row) :=
  match portsByIp (publicPorts st) with
  | .error e => .error e
  | .ok dict =>
    match publicAllocationPools st with
    | .error e => .error e
    | .ok pools =>
      match expandPools pools with
      | .error e => .error e
      | .ok poolAddrs =>
        processAddrs st dict
          ((st.reservedIps ++ poolAddrs).insertionSort (fun a b => a ≤ b)) []

/-- The ports the garbage-collection step re-lists for a router: ports whose
device is the router and whose device-owner is the router-interface
classification. -/
def interfacePortsOf (st : St) (rid : String) : List Port :=
  st.ports.filter
    (fun q => decide (q.deviceId = rid ∧ q.deviceOwner = routerInterfaceOwner))

/-! ### Concrete backing states used by witnesses and counterexamples -/

/-- A network `n5` with one subnet, one interface port and one uniquely
owned router. -/
def singleRouterSt : St :=
  { networks := [⟨"n5", "net5", some 7, "ph", "proj", ["s5"]⟩]
    subnets := [⟨"s5", "n5", [(10, 12)]⟩]
    ports := [⟨"p5", "n5", "r5", "network:router_interface", [11], "proj"⟩]
    routers := [⟨"r5", "proj"⟩]
    reservedIps := [] }

/-- Network `n1` with two router-interface ports on the same router `r1`;
`r1` has no other interface ports. -/
def doublePortSt : St :=
  { networks := [⟨"n1", "net1", some 100, "physnet1", "proj1", []⟩]
    subnets := []
    ports := [⟨"p1", "n1", "r1", "network:router_interface", [], "proj1"⟩,
              ⟨"p2", "n1", "r1", "network:router_interface", [], "proj1"⟩]
    routers := [⟨"r1", "proj1"⟩]
    reservedIps := [] }

/-- Router `r1` with one interface port on each of two networks `na`, `nb`. -/
def twoNetSt : St :=
  { networks := [⟨"na", "a", some 1, "ph", "p", []⟩, ⟨"nb", "b", some 2, "ph", "p", []⟩]
    subnets := []
    ports := [⟨"pa", "na", "r1", "network:router_interface", [], "p"⟩,
              ⟨"pb", "nb", "r1", "network:router_interface", [], "p"⟩]
    routers := [⟨"r1", "p"⟩]
    reservedIps := [] }

/-- `twoNetSt` after tearing down network `na`: router `r1` keeps its
second interface and survives. -/
def twoNetStAfterA : St :=
  { networks := [⟨"nb", "b", some 2, "ph", "p", []⟩]
    subnets := []
    ports := [⟨"pb", "nb", "r1", "network:router_interface", [], "p"⟩]
    routers := [⟨"r1", "p"⟩]
    reservedIps := [] }

/-- `twoNetStAfterA` after tearing down network `nb` as well: everything,
including router `r1`, is gone. -/
def twoNetStAfterB : St :=
  { networks := [], subnets := [], ports := [], routers := [], reservedIps := [] }

/-- A public network whose only pool is the single address 2, which is also
reserved in Blazar. -/
def dupAddrSt : St :=
  { networks := [⟨"pub", "public", none, "physnet1", "admin", ["s1"]⟩]
    subnets := [⟨"s1", "pub", [(2, 2)]⟩]
    ports := []
    routers := []
    reservedIps := [2] }

/-- The worked example of the spec: pool 2..4, a floating-IP port at 3, a
router-gateway port at 4 owned by router `r9`, and a reservation for 5
outside the pool. -/
def auditExSt : St :=
  { networks := [⟨"pub", "public", none, "physnet1", "admin", ["s1"]⟩]
    subnets := [⟨"s1", "pub", [(2, 4)]⟩]
    ports := [⟨"pf", "pub", "", "network:floatingip", [3], "projF"⟩,
              ⟨"pg", "pub", "r9", "network:router_gateway", [4], "ignored"⟩]
    routers := [⟨"r9", "projR"⟩]
    reservedIps := [5] }

/-- The rows the audit produces on `auditExSt`. -/
def auditExRows : List Row :=
  [⟨2, "unallocated", false, "none"⟩, ⟨3, "floating_ip", false, "projF"⟩,
   ⟨4, "gateway", false, "projR"⟩, ⟨5, "unallocated", true, "none"⟩]

/-- Two networks: one with segmentation ID 0, listed before one with no
segmentation ID. -/
def zeroSegSt : St :=
  { networks := [⟨"nx", "x", some 0, "ph", "p", []⟩, ⟨"ny", "y", none, "ph", "p", []⟩]
    subnets := [], ports := [], routers := [], reservedIps := [] }

/-- A gateway port with an empty `fixed_ips` list. -/
def emptyFixedSt : St :=
  { networks := [⟨"pub", "public", none, "physnet1", "admin", ["s1"]⟩]
    subnets := [⟨"s1", "pub", [(2, 2)]⟩]
    ports := [⟨"pg", "pub", "r9", "network:router_gateway", [], "p"⟩]
    routers := [⟨"r9", "p"⟩]
    reservedIps := [] }

/-- A network with a running instance: one `compute:nova` port. -/
def novaSt : St :=
  { networks := [⟨"n1", "net1", some 100, "physnet1", "proj1", []⟩]
    subnets := [⟨"s1", "n1", []⟩]
    ports := [⟨"pc", "n1", "vm1", "compute:nova", [9], "proj1"⟩]
    routers := []
    reservedIps := [] }

/-- `Modelled from the spec:` the sort key the claim describes for the
segment report — only networks *lacking* a segmentation ID are treated
as `-1`; every present segmentation ID (including 0) is used as-is. -/
def specSegmentSortKey (n : Network) : Int :=
  n.segmentationId.getD (-1)

instance : IsTotal Network (fun a b => sortKey a ≤ sortKey b) :=
  ⟨fun a b => Int.le_total (sortKey a) (sortKey b)⟩

instance : IsTrans Network (fun a b => sortKey a ≤ sortKey b) :=
  ⟨fun _ _ _ h h' => le_trans h h'⟩

/-- The classification claimed for one audit row, relative to the port
index `dict`: `reservable` reflects membership in the reserved set, and the
allocation type / project come from the indexed port (gateway ports
resolving their project through the owning router), defaulting to
unallocated. -/
def RowSpec (st : St) (dict : List (Nat × Port)) (r : Row) : Prop :=
  (r.reservable = true ↔ r.publicIp ∈ st.reservedIps) ∧
  (dictGet r.publicIp dict = none →
    r.allocationType = "unallocated" ∧ r.projectId = "none") ∧
  (∀ p, dictGet r.publicIp dict = some p →
    (p.deviceOwner = routerGatewayOwner →
      r.allocationType = "gateway" ∧
        ∃ rt, showRouter st p.deviceId = Except.ok rt ∧ r.projectId = rt.projectId) ∧
    (p.deviceOwner ≠ routerGatewayOwner →
      r.allocationType = "floating_ip" ∧ r.projectId = p.projectId))

/-! ### Theorems -/

/-- **C1** (counterexample): an invocation of teardown supplying both a
segment ID and a network ID does not fail at all (the segment resolves and
the teardown runs to completion), contradicting the claim that it fails
with InputError. -/
theorem C1_both_selectors_cex :
    (teardown (some 1) (some "bogus") twoNetSt).1 = none := by decide

/-- **C1** (amended): teardown invoked with neither a segment ID nor a
network ID fails with InputError leaving the backing state untouched;
when both are supplied the segment ID takes precedence and the network ID
is ignored. -/
theorem C1_selector_amended (st : St) (s : Int) (nid : String) :
    teardown none none st = (some Err.inputError, st) ∧
      teardown (some s) (some nid) st = teardown (some s) none st :=
  ⟨rfl, rfl⟩

/-- **C8**: `listSegments` and `auditPublicIPs` are deterministic — two runs
over identical backing state produce identical output. -/
theorem C8_deterministic (s₁ s₂ : St) (h : s₁ = s₂) :
    listSegments s₁ = listSegments s₂ ∧ auditPublicIPs s₁ = auditPublicIPs s₂ := by
  subst h; exact ⟨rfl, rfl⟩

/-- **C8** (witness): determinism at a concrete backing state. -/
theorem C8_deterministic_witness :
    listSegments dupAddrSt = listSegments dupAddrSt ∧
      auditPublicIPs dupAddrSt = auditPublicIPs dupAddrSt :=
  C8_deterministic dupAddrSt dupAddrSt rfl

/-- **C10**: on a network with two router-interface ports owned by the same
router (and no other interface ports on that router), the garbage-collection
loop deletes the router on the first iteration and then hits a client error
on the second; teardown raises the API error after the network itself was
already deleted. -/
theorem C10_gc_per_port_error :
    teardown none (some "n1") doublePortSt =
      (some Err.apiError, { networks := [], subnets := [], ports := [], routers := [], reservedIps := [] }) ∧
      (teardown none (some "n1") doublePortSt).2.networks = [] := by
  exact ⟨by decide, by decide⟩

/-- **C5** (counterexample): `doublePortSt`'s network `n1` has no
compute-instance ports, yet teardown does not succeed — it raises a
passthrough API error. -/
theorem C5_double_interface_cex :
    (portsForNetwork doublePortSt "n1").any
        (fun p => decide (p.deviceOwner = "compute:nova")) = false ∧
      (teardown none (some "n1") doublePortSt).1 = some Err.apiError := by
  exact ⟨by decide, by decide⟩

/-- **C7** (counterexample): a network with segmentation ID 0 is emitted
before a network lacking a segmentation ID, so the rows are not ordered
ascending by the claimed key (absent = -1, present IDs as-is). -/
theorem C7_zero_segment_cex :
    listSegments zeroSegSt =
      [["physical_network", "segmentation_id", "name", "project_id"],
       ["ph", "0", "x", "p"], ["ph", "None", "y", "p"]] ∧
      ¬ List.Sorted (fun a b => specSegmentSortKey a ≤ specSegmentSortKey b)
          (sortedNetworks zeroSegSt) := by
  exact ⟨by decide, by decide⟩

/-- **C7** (amended): the segment report emits one row per network, ordered
ascending by the code's sort key, under which a network lacking a
segmentation ID — and likewise one whose segmentation ID is 0, both being
falsy in Python — is treated as value -1 and sorted first. -/
theorem C7_segment_order_amended (st : St) :
    ∃ ns : List Network, ns.Perm st.networks ∧
      List.Sorted (fun a b => sortKey a ≤ sortKey b) ns ∧
      listSegments st = segmentHeader :: ns.map netRow :=
  ⟨sortedNetworks st, List.perm_insertionSort _ _,
    List.sorted_insertionSort _ _, rfl⟩

/-- **C3**: whenever the target resolves to a network with at least one
`compute:nova` port, teardown fails with ConflictError and the backing
state is returned unchanged — zero mutations. -/
theorem C3_conflict_no_mutation (seg : Option Int) (nid : Option String)
    (st : St) (n : Network)
    (hres : resolveTarget seg nid st = .ok n)
    (hnova : (portsForNetwork st n.id).any
      (fun p => decide (p.deviceOwner = "compute:nova")) = true) :
    teardown seg nid st = (some Err.conflict, st) := by
  unfold teardown
  rw [hres]
  simp only [teardownNet, hnova, if_true]

/-- **C3** (witness): the conflict abort at a concrete state with one
running instance. -/
theorem C3_conflict_no_mutation_witness :
    teardown none (some "n1") novaSt = (some Err.conflict, novaSt) :=
  C3_conflict_no_mutation none (some "n1") novaSt
    ⟨"n1", "net1", some 100, "physnet1", "proj1", []⟩ rfl (by decide)

/-- If the port index is built over a list containing a port with no fixed
IPs, the dict comprehension raises `IndexError`. -/
theorem portsByIp_indexError {l : List Port} (p : Port)
    (hp : p ∈ l) (hfix : p.fixedIps = []) :
    portsByIp l = .error .indexError := by
  induction l with
  | nil => cases hp
  | cons q rest ih =>
    cases hp with
    | head => simp only [portsByIp, hfix]
    | tail _ hmem =>
      cases hq : q.fixedIps with
      | nil => simp only [portsByIp, hq]
      | cons ip tl =>
        simp only [portsByIp, hq, ih hmem, Except.map]

/-- **C9**: the audit indexes each kept port by `fixed_ips[0]` without a
guard; on any backing state containing a floating-ip or router-gateway port
whose fixed-IP list is empty, the whole operation fails with the
IndexError. -/
theorem C9_empty_fixed_ips (st : St) (p : Port)
    (hp : p ∈ publicPorts st) (hfix : p.fixedIps = []) :
    auditPublicIPs st = .error .indexError := by
  unfold auditPublicIPs
  rw [portsByIp_indexError p hp hfix]

/-- **C9** (witness): the indexing error branch is reached at a concrete
state with a gateway port carrying no fixed IPs. -/
theorem C9_empty_fixed_ips_witness :
    auditPublicIPs emptyFixedSt = .error .indexError :=
  C9_empty_fixed_ips emptyFixedSt
    ⟨"pg", "pub", "r9", "network:router_gateway", [], "p"⟩ (by decide) rfl

/-- Inversion for `Except.map` landing in `.ok`. -/
theorem exceptMap_ok {ε α β : Type} {f : α → β} {e : Except ε α} {b : β}
    (h : e.map f = .ok b) : ∃ a, e = .ok a ∧ b = f a := by
  cases e with
  | error e' => simp [Except.map] at h
  | ok a => refine ⟨a, rfl, ?_⟩; simpa [Except.map] using h.symm

/-- The per-address loop emits exactly one row per candidate address, in
order: the addresses of the rows are the processed list itself. -/
theorem processAddrs_map_ip (st : St) (dict : List (Nat × Port)) :
    ∀ (ips : List Nat) (cache : List (String × Router)) (rows : List Row),
      processAddrs st dict ips cache = .ok rows →
      rows.map Row.publicIp = ips := by
  intro ips
  induction ips with
  | nil => intro cache rows h; cases h; rfl
  | cons ip rest ih =>
    intro cache rows h
    simp only [processAddrs] at h
    cases hd : dictGet ip dict with
    | none =>
      rw [hd] at h
      obtain ⟨rs, hp, hb⟩ := exceptMap_ok h
      subst hb
      simp [ih cache rs hp]
    | some port =>
      rw [hd] at h
      dsimp only at h
      by_cases hgw : port.deviceOwner = routerGatewayOwner
      · rw [if_pos hgw] at h
        cases hc : cacheGet port.deviceId cache with
        | some rt =>
          rw [hc] at h
          obtain ⟨rs, hp, hb⟩ := exceptMap_ok h
          subst hb
          simp [ih cache rs hp]
        | none =>
          rw [hc] at h
          cases hsr : showRouter st port.deviceId with
          | error e => rw [hsr] at h; cases h
          | ok rt =>
            rw [hsr] at h
            obtain ⟨rs, hp, hb⟩ := exceptMap_ok h
            subst hb
            simp [ih _ rs hp]
      · rw [if_neg hgw] at h
        obtain ⟨rs, hp, hb⟩ := exceptMap_ok h
        subst hb
        simp [ih cache rs hp]

/-- **C2** (counterexample): with address 2 both reserved and inside the
only allocation pool, the audit emits two identical rows for address 2 —
the candidate addresses are not de-duplicated. -/
theorem C2_duplicate_row_cex :
    auditPublicIPs dupAddrSt =
      .ok [⟨2, "unallocated", true, "none"⟩, ⟨2, "unallocated", true, "none"⟩] := by
  rfl

/-- **C2** (amended): the rows of a successful audit are ordered by address
ascending, and their addresses are exactly the concatenation of the
reserved floating-IP list with the expanded allocation-pool addresses
(each pool inclusive of both ends), *with multiplicity* — an address that is
both reserved and in a pool (or in two pools) gets one row per
occurrence, not one row in total. -/
theorem C2_audit_addresses_amended (st : St) (pools : List (Nat × Nat))
    (addrs : List Nat) (rows : List Row)
    (h₁ : publicAllocationPools st = .ok pools)
    (h₂ : expandPools pools = .ok addrs)
    (h₃ : auditPublicIPs st = .ok rows) :
    List.Sorted (· ≤ ·) (rows.map Row.publicIp) ∧
      ∀ a : Nat, (rows.map Row.publicIp).count a = (st.reservedIps ++ addrs).count a := by
  unfold auditPublicIPs at h₃
  cases hpb : portsByIp (publicPorts st) with
  | error e => rw [hpb] at h₃; cases h₃
  | ok dict =>
    rw [hpb] at h₃
    dsimp only at h₃
    rw [h₁] at h₃
    dsimp only at h₃
    rw [h₂] at h₃
    dsimp only at h₃
    rw [processAddrs_map_ip st dict _ _ _ h₃]
    refine ⟨List.sorted_insertionSort _ _, fun a => ?_⟩
    exact (List.perm_insertionSort _ _).count_eq a

/-- **C2** (witness): the amended address property at the spec's worked
example (pool 2..4, reservation 5, a floating-IP port and a gateway port). -/
theorem C2_audit_addresses_witness :
    List.Sorted (· ≤ ·)
      ((auditExRows.map Row.publicIp : List Nat)) ∧
      ∀ a : Nat, (auditExRows.map Row.publicIp).count a =
        (auditExSt.reservedIps ++ [2, 3, 4]).count a :=
  C2_audit_addresses_amended auditExSt [(2, 4)] [2, 3, 4] auditExRows rfl rfl rfl

/-- The per-address loop classifies every emitted row as claimed, provided
every memoized router was obtained from `show_router`. -/
theorem processAddrs_rowSpec (st : St) (dict : List (Nat × Port)) :
    ∀ (ips : List Nat) (cache : List (String × Router)) (rows : List Row),
      (∀ e ∈ cache, showRouter st e.1 = Except.ok e.2) →
      processAddrs st dict ips cache = .ok rows →
      ∀ r ∈ rows, RowSpec st dict r := by
  intro ips
  induction ips with
  | nil =>
    intro cache rows _ h r hr
    simp only [processAddrs] at h
    injection h with h'
    subst h'
    cases hr
  | cons ip rest ih =>
    intro cache rows hc h r hr
    simp only [processAddrs] at h
    cases hd : dictGet ip dict with
    | none =>
      rw [hd] at h
      obtain ⟨rs, hp, hb⟩ := exceptMap_ok h
      subst hb
      cases hr with
      | head =>
        refine ⟨by simp, fun _ => ⟨rfl, rfl⟩, fun p hp' => ?_⟩
        rw [hd] at hp'
        cases hp'
      | tail _ hmem => exact ih cache rs hc hp r hmem
    | some port =>
      rw [hd] at h
      dsimp only at h
      by_cases hgw : port.deviceOwner = routerGatewayOwner
      · rw [if_pos hgw] at h
        cases hcg : cacheGet port.deviceId cache with
        | some rt =>
          rw [hcg] at h
          obtain ⟨rs, hp, hb⟩ := exceptMap_ok h
          subst hb
          have hrt : showRouter st port.deviceId = Except.ok rt := by
            unfold cacheGet at hcg
            obtain ⟨e, he, he2⟩ := Option.map_eq_some'.mp hcg
            have hmem := List.mem_of_find?_eq_some he
            have hpa :=
              @List.find?_some (String × Router)
                (fun x => decide (x.1 = port.deviceId)) e cache he
            have hid : e.1 = port.deviceId := of_decide_eq_true hpa
            have hsh := hc e hmem
            rw [hid] at hsh
            rw [hsh, he2]
          cases hr with
          | head =>
            refine ⟨by simp, fun hn => ?_, fun p hp' => ?_⟩
            · rw [hd] at hn; cases hn
            · rw [hd] at hp'
              injection hp' with hpp
              subst hpp
              exact ⟨fun _ => ⟨rfl, rt, hrt, rfl⟩, fun hn => absurd hgw hn⟩
          | tail _ hmem => exact ih cache rs hc hp r hmem
        | none =>
          rw [hcg] at h
          cases hsr : showRouter st port.deviceId with
          | error e => rw [hsr] at h; cases h
          | ok rt =>
            rw [hsr] at h
            obtain ⟨rs, hp, hb⟩ := exceptMap_ok h
            subst hb
            have hc' : ∀ e ∈ (port.deviceId, rt) :: cache,
                showRouter st e.1 = Except.ok e.2 := by
              intro e he
              cases he with
              | head => exact hsr
              | tail _ hmem => exact hc e hmem
            cases hr with
            | head =>
              refine ⟨by simp, fun hn => ?_, fun p hp' => ?_⟩
              · rw [hd] at hn; cases hn
              · rw [hd] at hp'
                injection hp' with hpp
                subst hpp
                exact ⟨fun _ => ⟨rfl, rt, hsr, rfl⟩, fun hn => absurd hgw hn⟩
            | tail _ hmem => exact ih _ rs hc' hp r hmem
      · rw [if_neg hgw] at h
        obtain ⟨rs, hp, hb⟩ := exceptMap_ok h
        subst hb
        cases hr with
        | head =>
          refine ⟨by simp, fun hn => ?_, fun p hp' => ?_⟩
          · rw [hd] at hn; cases hn
          · rw [hd] at hp'
            injection hp' with hpp
            subst hpp
            exact ⟨fun hg => absurd hg hgw, fun _ => ⟨rfl, rfl⟩⟩
        | tail _ hmem => exact ih cache rs hc hp r hmem

/-- **C6**: every row of a successful audit is classified as claimed:
`reservable` is true exactly for reserved addresses; a row whose address
indexes a kept port is a "gateway" row carrying the owning router's project
when the port is router-gateway-owned and a "floating_ip" row carrying the
port's project otherwise; and an unindexed address yields
"unallocated"/"none". -/
theorem C6_row_classification (st : St) (dict : List (Nat × Port))
    (rows : List Row) (r : Row)
    (hdict : portsByIp (publicPorts st) = .ok dict)
    (haudit : auditPublicIPs st = .ok rows)
    (hr : r ∈ rows) :
    RowSpec st dict r := by
  unfold auditPublicIPs at haudit
  rw [hdict] at haudit
  dsimp only at haudit
  cases h₁ : publicAllocationPools st with
  | error e => rw [h₁] at haudit; cases haudit
  | ok pools =>
    rw [h₁] at haudit
    dsimp only at haudit
    cases h₂ : expandPools pools with
    | error e => rw [h₂] at haudit; cases haudit
    | ok addrs =>
      rw [h₂] at haudit
      dsimp only at haudit
      exact processAddrs_rowSpec st dict _ [] rows (fun e he => absurd he (by simp))
        haudit r hr

/-- **C6** (witness): the classification of the gateway row of the worked
example, whose project is resolved through router `r9`. -/
theorem C6_row_classification_witness :
    RowSpec auditExSt
      [(3, ⟨"pf", "pub", "", "network:floatingip", [3], "projF"⟩),
       (4, ⟨"pg", "pub", "r9", "network:router_gateway", [4], "ignored"⟩)]
      ⟨4, "gateway", false, "projR"⟩ :=
  C6_row_classification auditExSt _ auditExRows ⟨4, "gateway", false, "projR"⟩
    rfl rfl (by decide)

/-! ### Teardown phase lemmas -/

theorem removeInterfaceRouter_ok {rid pid : String} {st st' : St}
    (h : removeInterfaceRouter rid pid st = .ok st') :
    st' = { st with ports := st.ports.filter (fun p => decide (¬ p.id = pid)) } ∧
      st.routers.any (fun r => decide (r.id = rid)) = true := by
  unfold removeInterfaceRouter at h
  split_ifs at h with h1 h2
  exact ⟨(Except.ok.inj h).symm, h1⟩

theorem removeInterfaceRouter_eq_ok {rid pid : String} {st : St}
    (h1 : st.routers.any (fun r => decide (r.id = rid)) = true)
    (h2 : st.ports.any (fun p => decide (p.id = pid ∧ p.deviceId = rid)) = true) :
    removeInterfaceRouter rid pid st =
      .ok { st with ports := st.ports.filter (fun p => decide (¬ p.id = pid)) } := by
  unfold removeInterfaceRouter
  rw [if_pos h1, if_pos h2]

theorem deleteSubnet_ok {sid : String} {st st' : St}
    (h : deleteSubnet sid st = .ok st') :
    st' = { st with subnets := st.subnets.filter (fun s => decide (¬ s.id = sid)) } := by
  unfold deleteSubnet at h
  split_ifs at h with h1
  exact (Except.ok.inj h).symm

theorem deleteSubnet_eq_ok {sid : String} {st : St}
    (h1 : st.subnets.any (fun s => decide (s.id = sid)) = true) :
    deleteSubnet sid st =
      .ok { st with subnets := st.subnets.filter (fun s => decide (¬ s.id = sid)) } := by
  unfold deleteSubnet
  rw [if_pos h1]

theorem deleteNetwork_ok {nid : String} {st st' : St}
    (h : deleteNetwork nid st = .ok st') :
    st' = { st with networks := st.networks.filter (fun n => decide (¬ n.id = nid)) } := by
  unfold deleteNetwork at h
  split_ifs at h with h1
  exact (Except.ok.inj h).symm

theorem deleteNetwork_eq_ok {nid : String} {st : St}
    (h1 : st.networks.any (fun n => decide (n.id = nid)) = true) :
    deleteNetwork nid st =
      .ok { st with networks := st.networks.filter (fun n => decide (¬ n.id = nid)) } := by
  unfold deleteNetwork
  rw [if_pos h1]

theorem removeGatewayRouter_ok {rid : String} {st st' : St}
    (h : removeGatewayRouter rid st = .ok st') :
    st' = { st with ports := (st.ports.filter
        (fun p => decide (¬ (p.deviceId = rid ∧ p.deviceOwner = "network:router_gateway")))) } := by
  unfold removeGatewayRouter at h
  split_ifs at h with h1
  exact (Except.ok.inj h).symm

theorem removeGatewayRouter_eq_ok {rid : String} {st : St}
    (h1 : st.routers.any (fun r => decide (r.id = rid)) = true) :
    removeGatewayRouter rid st =
      .ok { st with ports := (st.ports.filter
        (fun p => decide (¬ (p.deviceId = rid ∧ p.deviceOwner = "network:router_gateway")))) } := by
  unfold removeGatewayRouter
  rw [if_pos h1]

theorem deleteRouter_ok {rid : String} {st st' : St}
    (h : deleteRouter rid st = .ok st') :
    st' = { st with routers := st.routers.filter (fun r => decide (¬ r.id = rid)) } := by
  unfold deleteRouter at h
  split_ifs at h with h1
  exact (Except.ok.inj h).symm

theorem deleteRouter_eq_ok {rid : String} {st : St}
    (h1 : st.routers.any (fun r => decide (r.id = rid)) = true) :
    deleteRouter rid st =
      .ok { st with routers := st.routers.filter (fun r => decide (¬ r.id = rid)) } := by
  unfold deleteRouter
  rw [if_pos h1]

/-- The detach loop never touches networks, subnets or routers, whether it
succeeds or stops at an error. -/
theorem detachPorts_snd_fields : ∀ (l : List Port) (st : St),
    ((detachPorts l st).2).networks = st.networks ∧
      ((detachPorts l st).2).subnets = st.subnets ∧
      ((detachPorts l st).2).routers = st.routers := by
  intro l
  induction l with
  | nil => intro st; exact ⟨rfl, rfl, rfl⟩
  | cons p rest ih =>
    intro st
    simp only [detachPorts]
    cases hop : removeInterfaceRouter p.deviceId p.id st with
    | error e => exact ⟨rfl, rfl, rfl⟩
    | ok st1 =>
      obtain ⟨hs, -⟩ := removeInterfaceRouter_ok hop
      subst hs
      exact ih _

/-- A successful detach loop implies every detached port's router existed
in the starting state. -/
theorem detachPorts_ok_routers : ∀ (l : List Port) (st st' : St),
    detachPorts l st = (none, st') →
    ∀ p ∈ l, st.routers.any (fun r => decide (r.id = p.deviceId)) = true := by
  intro l
  induction l with
  | nil => intro st st' _ p hp; cases hp
  | cons q rest ih =>
    intro st st' h p hp
    simp only [detachPorts] at h
    cases hop : removeInterfaceRouter q.deviceId q.id st with
    | error e => rw [hop] at h; simp at h
    | ok st1 =>
      rw [hop] at h
      obtain ⟨hs, hr⟩ := removeInterfaceRouter_ok hop
      subst hs
      cases hp with
      | head => exact hr
      | tail _ hmem => exact ih _ st' h p hmem

/-- The detach loop succeeds when every listed port (with its device) is
present, every target router exists, and the listed port IDs are distinct;
the resulting ports are exactly the starting ports minus the listed IDs. -/
theorem detachPorts_ok_of : ∀ (l : List Port) (st : St),
    (∀ p ∈ l, st.ports.any
      (fun x => decide (x.id = p.id ∧ x.deviceId = p.deviceId)) = true) →
    (∀ p ∈ l, st.routers.any (fun r => decide (r.id = p.deviceId)) = true) →
    (l.map Port.id).Nodup →
    (detachPorts l st).1 = none ∧
      (∀ x : Port, x ∈ ((detachPorts l st).2).ports ↔
        (x ∈ st.ports ∧ ∀ p ∈ l, ¬ x.id = p.id)) := by
  intro l
  induction l with
  | nil =>
    intro st _ _ _
    exact ⟨rfl, fun x => by simp [detachPorts]⟩
  | cons p rest ih =>
    intro st hex hr hnd
    have hop := removeInterfaceRouter_eq_ok (hr p (List.mem_cons_self p rest))
      (hex p (List.mem_cons_self p rest))
    simp only [detachPorts, hop]
    have hidnotin : p.id ∉ rest.map Port.id := by
      simp only [List.map_cons, List.nodup_cons] at hnd
      exact hnd.1
    have hndrest : (rest.map Port.id).Nodup := by
      simp only [List.map_cons, List.nodup_cons] at hnd
      exact hnd.2
    have hex' : ∀ q ∈ rest,
        ({ st with ports := st.ports.filter (fun x => decide (¬ x.id = p.id)) } : St).ports.any
          (fun x => decide (x.id = q.id ∧ x.deviceId = q.deviceId)) = true := by
      intro q hq
      obtain ⟨y, hy, hyp⟩ := List.any_eq_true.mp (hex q (List.mem_cons_of_mem p hq))
      obtain ⟨hyid, hydev⟩ := of_decide_eq_true hyp
      have hqid : ¬ q.id = p.id := by
        intro hcon
        exact hidnotin (hcon ▸ List.mem_map_of_mem Port.id hq)
      refine List.any_eq_true.mpr ⟨y, ?_, hyp⟩
      exact List.mem_filter.mpr ⟨hy, decide_eq_true (by rw [hyid]; exact hqid)⟩
    have hr' : ∀ q ∈ rest,
        ({ st with ports := st.ports.filter (fun x => decide (¬ x.id = p.id)) } : St).routers.any
          (fun r => decide (r.id = q.deviceId)) = true :=
      fun q hq => hr q (List.mem_cons_of_mem p hq)
    obtain ⟨hfst, hiff⟩ := ih _ hex' hr' hndrest
    refine ⟨hfst, fun x => ?_⟩
    rw [hiff x]
    constructor
    · rintro ⟨hxf, hxrest⟩
      obtain ⟨hxmem, hxp⟩ := List.mem_filter.mp hxf
      refine ⟨hxmem, fun q hq => ?_⟩
      cases hq with
      | head => exact of_decide_eq_true hxp
      | tail _ hq' => exact hxrest q hq'
    · rintro ⟨hxmem, hall⟩
      refine ⟨List.mem_filter.mpr ⟨hxmem,
        decide_eq_true (hall p (List.mem_cons_self p rest))⟩, fun q hq =>
        hall q (List.mem_cons_of_mem p hq)⟩

/-- The subnet deletion loop never touches networks, ports or routers. -/
theorem deleteSubnets_snd_fields : ∀ (l : List Subnet) (st : St),
    ((deleteSubnets l st).2).networks = st.networks ∧
      ((deleteSubnets l st).2).ports = st.ports ∧
      ((deleteSubnets l st).2).routers = st.routers := by
  intro l
  induction l with
  | nil => intro st; exact ⟨rfl, rfl, rfl⟩
  | cons s rest ih =>
    intro st
    simp only [deleteSubnets]
    cases hop : deleteSubnet s.id st with
    | error e => exact ⟨rfl, rfl, rfl⟩
    | ok st1 =>
      have hs := deleteSubnet_ok hop
      subst hs
      exact ih _

/-- The subnet deletion loop succeeds when every listed subnet is present
and the listed IDs are distinct; the resulting subnets are exactly the
starting subnets minus the listed IDs. -/
theorem deleteSubnets_ok_of : ∀ (l : List Subnet) (st : St),
    (∀ s ∈ l, st.subnets.any (fun x => decide (x.id = s.id)) = true) →
    (l.map Subnet.id).Nodup →
    (deleteSubnets l st).1 = none ∧
      (∀ x : Subnet, x ∈ ((deleteSubnets l st).2).subnets ↔
        (x ∈ st.subnets ∧ ∀ s ∈ l, ¬ x.id = s.id)) := by
  intro l
  induction l with
  | nil =>
    intro st _ _
    exact ⟨rfl, fun x => by simp [deleteSubnets]⟩
  | cons s rest ih =>
    intro st hex hnd
    have hop := deleteSubnet_eq_ok (hex s (List.mem_cons_self s rest))
    simp only [deleteSubnets, hop]
    have hidnotin : s.id ∉ rest.map Subnet.id := by
      simp only [List.map_cons, List.nodup_cons] at hnd
      exact hnd.1
    have hndrest : (rest.map Subnet.id).Nodup := by
      simp only [List.map_cons, List.nodup_cons] at hnd
      exact hnd.2
    have hex' : ∀ q ∈ rest,
        ({ st with subnets := st.subnets.filter (fun x => decide (¬ x.id = s.id)) } : St).subnets.any
          (fun x => decide (x.id = q.id)) = true := by
      intro q hq
      obtain ⟨y, hy, hyp⟩ := List.any_eq_true.mp (hex q (List.mem_cons_of_mem s hq))
      have hyid := of_decide_eq_true hyp
      have hqid : ¬ q.id = s.id := by
        intro hcon
        exact hidnotin (hcon ▸ List.mem_map_of_mem Subnet.id hq)
      refine List.any_eq_true.mpr ⟨y, ?_, hyp⟩
      exact List.mem_filter.mpr ⟨hy, decide_eq_true (by rw [hyid]; exact hqid)⟩
    obtain ⟨hfst, hiff⟩ := ih _ hex' hndrest
    refine ⟨hfst, fun x => ?_⟩
    rw [hiff x]
    constructor
    · rintro ⟨hxf, hxrest⟩
      obtain ⟨hxmem, hxp⟩ := List.mem_filter.mp hxf
      refine ⟨hxmem, fun q hq => ?_⟩
      cases hq with
      | head => exact of_decide_eq_true hxp
      | tail _ hq' => exact hxrest q hq'
    · rintro ⟨hxmem, hall⟩
      refine ⟨List.mem_filter.mpr ⟨hxmem,
        decide_eq_true (hall s (List.mem_cons_self s rest))⟩, fun q hq =>
        hall q (List.mem_cons_of_mem s hq)⟩

/-- Removing a router's gateway ports does not change any router's
re-listed interface ports. -/
theorem interfacePortsOf_removeGateway (st : St) (rid2 rid : String) :
    interfacePortsOf { st with ports := (st.ports.filter
        (fun p => decide (¬ (p.deviceId = rid2 ∧ p.deviceOwner = "network:router_gateway")))) } rid =
      interfacePortsOf st rid := by
  unfold interfacePortsOf
  dsimp only
  rw [List.filter_filter]
  apply List.filter_congr
  intro x _
  by_cases hx : x.deviceId = rid ∧ x.deviceOwner = routerInterfaceOwner
  · have hgw : ¬ (x.deviceId = rid2 ∧ x.deviceOwner = "network:router_gateway") := by
      rintro ⟨-, hcon⟩
      rw [hx.2] at hcon
      exact absurd hcon (by decide)
    rw [decide_eq_true hx, decide_eq_true hgw]
    rfl
  · rw [decide_eq_false hx, Bool.false_and]

/-- The garbage-collection loop never touches networks or subnets. -/
theorem gcRouters_snd_nets_subs : ∀ (l : List Port) (st : St),
    ((gcRouters l st).2).networks = st.networks ∧
      ((gcRouters l st).2).subnets = st.subnets := by
  intro l
  induction l with
  | nil => intro st; exact ⟨rfl, rfl⟩
  | cons p rest ih =>
    intro st
    simp only [gcRouters]
    split_ifs with hemp
    · cases hg : removeGatewayRouter p.deviceId st with
      | error e => exact ⟨rfl, rfl⟩
      | ok stg =>
        dsimp only
        cases hdl : deleteRouter p.deviceId stg with
        | error e =>
          have hs := removeGatewayRouter_ok hg
          subst hs
          exact ⟨rfl, rfl⟩
        | ok std =>
          dsimp only
          have hs := removeGatewayRouter_ok hg
          have hd := deleteRouter_ok hdl
          subst hs
          subst hd
          exact ih _
    · exact ih st

/-- The garbage-collection loop never changes the re-listed interface ports
of any router. -/
theorem gcRouters_snd_ifPorts : ∀ (l : List Port) (st : St) (rid : String),
    interfacePortsOf ((gcRouters l st).2) rid = interfacePortsOf st rid := by
  intro l
  induction l with
  | nil => intro st rid; rfl
  | cons p rest ih =>
    intro st rid
    simp only [gcRouters]
    split_ifs with hemp
    · cases hg : removeGatewayRouter p.deviceId st with
      | error e => rfl
      | ok stg =>
        dsimp only
        cases hdl : deleteRouter p.deviceId stg with
        | error e =>
          have hs := removeGatewayRouter_ok hg
          subst hs
          exact interfacePortsOf_removeGateway st p.deviceId rid
        | ok std =>
          dsimp only
          have hs := removeGatewayRouter_ok hg
          have hd := deleteRouter_ok hdl
          subst hs
          subst hd
          rw [ih _ rid]
          exact interfacePortsOf_removeGateway st p.deviceId rid
    · exact ih st rid

/-- Routers only disappear during garbage collection: any router present
afterwards was present before. -/
theorem gcRouters_routers_subset : ∀ (l : List Port) (st : St) (r : Router),
    r ∈ ((gcRouters l st).2).routers → r ∈ st.routers := by
  intro l
  induction l with
  | nil => intro st r hr; exact hr
  | cons p rest ih =>
    intro st r hr
    simp only [gcRouters] at hr
    split_ifs at hr with hemp
    · cases hg : removeGatewayRouter p.deviceId st with
      | error e => rw [hg] at hr; exact hr
      | ok stg =>
        rw [hg] at hr
        dsimp only at hr
        cases hdl : deleteRouter p.deviceId stg with
        | error e =>
          rw [hdl] at hr
          have hs := removeGatewayRouter_ok hg
          subst hs
          exact hr
        | ok std =>
          rw [hdl] at hr
          dsimp only at hr
          have hs := removeGatewayRouter_ok hg
          have hd := deleteRouter_ok hdl
          subst hs
          subst hd
          have hmem := ih _ r hr
          exact List.mem_of_mem_filter hmem
    · exact ih st r hr

theorem interfacePortsOf_def (st : St) (rid : String) :
    interfacePortsOf st rid = st.ports.filter
      (fun q => decide (q.deviceId = rid ∧ q.deviceOwner = routerInterfaceOwner)) :=
  rfl

theorem interfacePortsOf_congr {st₁ st₂ : St} (h : st₁.ports = st₂.ports)
    (rid : String) : interfacePortsOf st₁ rid = interfacePortsOf st₂ rid := by
  unfold interfacePortsOf
  rw [h]

/-- The garbage-collection loop succeeds whenever the detached ports all
name distinct routers and each of those routers is present. -/
theorem gcRouters_fst_none : ∀ (l : List Port) (st : St),
    (l.map Port.deviceId).Nodup →
    (∀ q ∈ l, st.routers.any (fun r => decide (r.id = q.deviceId)) = true) →
    (gcRouters l st).1 = none := by
  intro l
  induction l with
  | nil => intro st _ _; rfl
  | cons p rest ih =>
    intro st hnd hr
    have hdevnotin : p.deviceId ∉ rest.map Port.deviceId := by
      simp only [List.map_cons, List.nodup_cons] at hnd
      exact hnd.1
    have hndrest : (rest.map Port.deviceId).Nodup := by
      simp only [List.map_cons, List.nodup_cons] at hnd
      exact hnd.2
    simp only [gcRouters]
    split_ifs with hemp
    · cases hg : removeGatewayRouter p.deviceId st with
      | error e =>
        exfalso
        unfold removeGatewayRouter at hg
        rw [if_pos (hr p (List.mem_cons_self p rest))] at hg
        exact Except.noConfusion hg
      | ok stg =>
        dsimp only
        have hs := removeGatewayRouter_ok hg
        have hsr : stg.routers = st.routers := by rw [hs]
        cases hdl : deleteRouter p.deviceId stg with
        | error e =>
          exfalso
          unfold deleteRouter at hdl
          rw [hsr, if_pos (hr p (List.mem_cons_self p rest))] at hdl
          exact Except.noConfusion hdl
        | ok std =>
          dsimp only
          have hd := deleteRouter_ok hdl
          have hdr : std.routers =
              st.routers.filter (fun r => decide (¬ r.id = p.deviceId)) := by
            rw [hd]
            dsimp only
            rw [hsr]
          apply ih std hndrest
          intro q hq
          obtain ⟨r, hrm, hrp⟩ := List.any_eq_true.mp (hr q (List.mem_cons_of_mem p hq))
          have hrid := of_decide_eq_true hrp
          refine List.any_eq_true.mpr ⟨r, ?_, hrp⟩
          rw [hdr]
          refine List.mem_filter.mpr ⟨hrm, decide_eq_true ?_⟩
          intro hcon
          apply hdevnotin
          have hpq : p.deviceId = q.deviceId := by rw [← hcon, hrid]
          rw [hpq]
          exact List.mem_map_of_mem Port.deviceId hq
    · exact ih st hndrest (fun q hq => hr q (List.mem_cons_of_mem p hq))

/-- Characterization of a successful garbage-collection pass: the routers
left standing are exactly those that either were not touched by any
detached port, or still had re-listed interface ports at the start of the
pass. -/
theorem gcRouters_ok_routers : ∀ (l : List Port) (st st' : St),
    (∀ q ∈ l, q.deviceOwner = routerInterfaceOwner) →
    gcRouters l st = (none, st') →
    st'.routers = st.routers.filter
      (fun r => !(l.any (fun q => decide (q.deviceId = r.id)) &&
                  decide (interfacePortsOf st r.id = []))) := by
  intro l
  induction l with
  | nil =>
    intro st st' _ h
    simp only [gcRouters] at h
    have hst := congrArg Prod.snd h
    dsimp only at hst
    subst hst
    simp
  | cons p rest ih =>
    intro st st' hq h
    have hown : p.deviceOwner = routerInterfaceOwner := hq p (List.mem_cons_self p rest)
    simp only [gcRouters] at h
    rw [hown, ← interfacePortsOf_def] at h
    split_ifs at h with hemp
    · cases hg : removeGatewayRouter p.deviceId st with
      | error e => rw [hg] at h; simp at h
      | ok stg =>
        rw [hg] at h
        dsimp only at h
        cases hdl : deleteRouter p.deviceId stg with
        | error e => rw [hdl] at h; simp at h
        | ok std =>
          rw [hdl] at h
          dsimp only at h
          have hs := removeGatewayRouter_ok hg
          have hd := deleteRouter_ok hdl
          have hports : std.ports = stg.ports := by rw [hd]
          have hsr : stg.routers = st.routers := by rw [hs]
          have hdr : std.routers =
              st.routers.filter (fun r => decide (¬ r.id = p.deviceId)) := by
            rw [hd]
            dsimp only
            rw [hsr]
          have hIP : ∀ rid, interfacePortsOf std rid = interfacePortsOf st rid := by
            intro rid
            rw [interfacePortsOf_congr hports rid, hs]
            exact interfacePortsOf_removeGateway st p.deviceId rid
          have ihh := ih std st' (fun q hq' => hq q (List.mem_cons_of_mem p hq')) h
          rw [ihh, hdr, List.filter_filter]
          apply List.filter_congr
          intro r hrm
          rw [hIP r.id]
          by_cases hid : r.id = p.deviceId
          · rw [hid]
            have hip : interfacePortsOf st p.deviceId = [] := hemp
            simp [hip]
          · have hid' : ¬ p.deviceId = r.id := fun hcon => hid hcon.symm
            simp [hid, hid']
    · have ihh := ih st st' (fun q hq' => hq q (List.mem_cons_of_mem p hq')) h
      rw [ihh]
      apply List.filter_congr
      intro r hrm
      by_cases hid : r.id = p.deviceId
      · rw [hid]
        simp [hemp]
      · have hid' : ¬ p.deviceId = r.id := fun hcon => hid hcon.symm
        simp [hid']

/-- A successful teardown decomposes into its successive phases. -/
theorem teardown_ok_decomp {seg : Option Int} {nid : Option String}
    {st st' : St} {n : Network}
    (hres : resolveTarget seg nid st = .ok n)
    (ht : teardown seg nid st = (none, st')) :
    ∃ st₁ st₂ st₃,
      (portsForNetwork st n.id).any
        (fun p => decide (p.deviceOwner = "compute:nova")) = false ∧
      detachPorts (routerPortsOf st n.id) st = (none, st₁) ∧
      deleteSubnets (subnetsForNetwork st₁ n.id) st₁ = (none, st₂) ∧
      deleteNetwork n.id st₂ = .ok st₃ ∧
      gcRouters (routerPortsOf st n.id) st₃ = (none, st') := by
  unfold teardown at ht
  rw [hres] at ht
  dsimp only at ht
  simp only [teardownNet] at ht
  cases hnova : (portsForNetwork st n.id).any
      (fun p => decide (p.deviceOwner = "compute:nova")) with
  | true => rw [hnova] at ht; simp at ht
  | false =>
    rw [hnova] at ht
    simp only [Bool.false_eq_true, if_false] at ht
    cases hdet : detachPorts (routerPortsOf st n.id) st with
    | mk e1 st1 =>
      rw [hdet] at ht
      cases e1 with
      | some e => dsimp only at ht; simp at ht
      | none =>
        dsimp only at ht
        cases hsub : deleteSubnets (subnetsForNetwork st1 n.id) st1 with
        | mk e2 st2 =>
          rw [hsub] at ht
          cases e2 with
          | some e => dsimp only at ht; simp at ht
          | none =>
            dsimp only at ht
            cases hnet : deleteNetwork n.id st2 with
            | error e => rw [hnet] at ht; simp at ht
            | ok st3 =>
              rw [hnet] at ht
              dsimp only at ht
              exact ⟨st1, st2, st3, rfl, rfl, hsub, hnet, ht⟩

/-- **C4**: after a successful teardown, a router touched by the detach
step is absent from the final state exactly when no ports with the
router-interface device-owner remain attached to it. -/
theorem C4_router_gc_iff (seg : Option Int) (nid : Option String)
    (st st' : St) (n : Network) (p : Port)
    (hres : resolveTarget seg nid st = .ok n)
    (ht : teardown seg nid st = (none, st'))
    (hp : p ∈ routerPortsOf st n.id) :
    st'.routers.any (fun r => decide (r.id = p.deviceId)) = false ↔
      interfacePortsOf st' p.deviceId = [] := by
  obtain ⟨st₁, st₂, st₃, hnova, hdet, hsub, hnet, hgc⟩ := teardown_ok_decomp hres ht
  have hr0 : st.routers.any (fun r => decide (r.id = p.deviceId)) = true :=
    detachPorts_ok_routers _ _ _ hdet p hp
  have h13 : st₃.routers = st.routers := by
    have f1 := detachPorts_snd_fields (routerPortsOf st n.id) st
    rw [hdet] at f1
    have f2 := deleteSubnets_snd_fields (subnetsForNetwork st₁ n.id) st₁
    rw [hsub] at f2
    have f3 := deleteNetwork_ok hnet
    rw [f3]
    dsimp only
    rw [f2.2.2, f1.2.2]
  have hown : ∀ q ∈ routerPortsOf st n.id, q.deviceOwner = routerInterfaceOwner := by
    intro q hq
    unfold routerPortsOf at hq
    exact of_decide_eq_true (List.mem_filter.mp hq).2
  have hchar := gcRouters_ok_routers _ _ _ hown hgc
  have hIP : interfacePortsOf st' p.deviceId = interfacePortsOf st₃ p.deviceId := by
    have hi := gcRouters_snd_ifPorts (routerPortsOf st n.id) st₃ p.deviceId
    rw [hgc] at hi
    exact hi
  constructor
  · intro hnone
    rw [hIP]
    by_contra hne
    obtain ⟨r, hrm, hrp⟩ := List.any_eq_true.mp hr0
    have hrid := of_decide_eq_true hrp
    have hrmem' : r ∈ st'.routers := by
      rw [hchar]
      refine List.mem_filter.mpr ⟨by rw [h13]; exact hrm, ?_⟩
      rw [hrid]
      rw [decide_eq_false hne, Bool.and_false]
      rfl
    have : st'.routers.any (fun r => decide (r.id = p.deviceId)) = true :=
      List.any_eq_true.mpr ⟨r, hrmem', hrp⟩
    rw [hnone] at this
    exact Bool.noConfusion this
  · intro hemp
    rw [hIP] at hemp
    cases hany : st'.routers.any (fun r => decide (r.id = p.deviceId)) with
    | false => rfl
    | true =>
      exfalso
      obtain ⟨r, hrm, hrp⟩ := List.any_eq_true.mp hany
      have hrid := of_decide_eq_true hrp
      rw [hchar] at hrm
      have hcond := (List.mem_filter.mp hrm).2
      have hanyl : (routerPortsOf st n.id).any
          (fun q => decide (q.deviceId = r.id)) = true :=
        List.any_eq_true.mpr ⟨p, hp, decide_eq_true hrid.symm⟩
      rw [hanyl, hrid, decide_eq_true hemp, Bool.and_true] at hcond
      exact Bool.noConfusion hcond

/-- **C4** (witness): the two-network scenario. Tearing down `na` leaves
router `r1` with its `nb` interface and `r1` is not deleted (both sides of
the iff are false); tearing down `nb` afterwards removes the last interface
and `r1` is deleted (both sides true). -/
theorem C4_router_gc_iff_witness :
    (twoNetStAfterA.routers.any (fun r => decide (r.id = "r1")) = false ↔
      interfacePortsOf twoNetStAfterA "r1" = []) ∧
    (twoNetStAfterB.routers.any (fun r => decide (r.id = "r1")) = false ↔
      interfacePortsOf twoNetStAfterB "r1" = []) :=
  ⟨C4_router_gc_iff none (some "na") twoNetSt twoNetStAfterA
      ⟨"na", "a", some 1, "ph", "p", []⟩
      ⟨"pa", "na", "r1", "network:router_interface", [], "p"⟩
      rfl (by decide) (by decide),
   C4_router_gc_iff none (some "nb") twoNetStAfterA twoNetStAfterB
      ⟨"nb", "b", some 2, "ph", "p", []⟩
      ⟨"pb", "nb", "r1", "network:router_interface", [], "p"⟩
      rfl (by decide) (by decide)⟩

theorem routerPortsOf_owner (st : St) (nid : String) :
    ∀ q ∈ routerPortsOf st nid, q.deviceOwner = routerInterfaceOwner := by
  intro q hq
  unfold routerPortsOf at hq
  exact of_decide_eq_true (List.mem_filter.mp hq).2

theorem routerPortsOf_mem_ports (st : St) (nid : String) :
    ∀ q ∈ routerPortsOf st nid, q ∈ st.ports := by
  intro q hq
  unfold routerPortsOf portsForNetwork at hq
  exact List.mem_of_mem_filter (List.mem_of_mem_filter hq)

theorem mem_routerPortsOf {st : St} {nid : String} {q : Port}
    (h1 : q ∈ st.ports) (h2 : q.networkId = nid)
    (h3 : q.deviceOwner = routerInterfaceOwner) : q ∈ routerPortsOf st nid := by
  unfold routerPortsOf portsForNetwork
  exact List.mem_filter.mpr
    ⟨List.mem_filter.mpr ⟨h1, decide_eq_true h2⟩, decide_eq_true h3⟩

/-- **C5** (amended): for a network with no compute-instance ports, in a
well-formed backing state (distinct port and subnet IDs, every
router-interface port's device an existing router) and provided no two of
the network's router-interface ports share the same router, teardown
succeeds, and afterwards the network, all of its subnets, and every router
whose router-interface ports all lay on the network are absent. -/
theorem C5_teardown_success_amended (st : St) (nid : String) (n : Network)
    (hres : getNetwork st nid = .ok n)
    (hnova : (portsForNetwork st n.id).any
      (fun p => decide (p.deviceOwner = "compute:nova")) = false)
    (hpnd : (st.ports.map Port.id).Nodup)
    (hsnd : (st.subnets.map Subnet.id).Nodup)
    (hrt : ∀ p ∈ routerPortsOf st n.id,
      st.routers.any (fun r => decide (r.id = p.deviceId)) = true)
    (hdnd : ((routerPortsOf st n.id).map Port.deviceId).Nodup) :
    (teardown none (some nid) st).1 = none ∧
      (∀ m ∈ ((teardown none (some nid) st).2).networks, ¬ m.id = n.id) ∧
      (∀ s ∈ st.subnets, s.networkId = n.id →
        ∀ x ∈ ((teardown none (some nid) st).2).subnets, ¬ x.id = s.id) ∧
      (∀ r ∈ st.routers,
        (∃ p ∈ st.ports, p.deviceId = r.id ∧ p.deviceOwner = routerInterfaceOwner ∧
          p.networkId = n.id) →
        (∀ q ∈ st.ports, q.deviceId = r.id → q.deviceOwner = routerInterfaceOwner →
          q.networkId = n.id) →
        ∀ r' ∈ ((teardown none (some nid) st).2).routers, ¬ r'.id = r.id) := by
  -- detach phase
  have hex : ∀ p ∈ routerPortsOf st n.id, st.ports.any
      (fun x => decide (x.id = p.id ∧ x.deviceId = p.deviceId)) = true :=
    fun p hp => List.any_eq_true.mpr
      ⟨p, routerPortsOf_mem_ports st n.id p hp, decide_eq_true ⟨rfl, rfl⟩⟩
  have hlnd : ((routerPortsOf st n.id).map Port.id).Nodup := by
    have hsub2 : List.Sublist (routerPortsOf st n.id) st.ports := by
      unfold routerPortsOf portsForNetwork
      exact (List.filter_sublist _).trans (List.filter_sublist _)
    exact (hsub2.map Port.id).nodup hpnd
  obtain ⟨hd1, hdmem⟩ := detachPorts_ok_of (routerPortsOf st n.id) st hex hrt hlnd
  cases hD : detachPorts (routerPortsOf st n.id) st with
  | mk e1 st1 =>
  rw [hD] at hd1 hdmem
  dsimp only at hd1 hdmem
  subst hd1
  have f1 := detachPorts_snd_fields (routerPortsOf st n.id) st
  rw [hD] at f1
  dsimp only at f1
  -- subnet phase
  have hsex : ∀ s ∈ subnetsForNetwork st1 n.id,
      st1.subnets.any (fun x => decide (x.id = s.id)) = true := by
    intro s hs
    unfold subnetsForNetwork at hs
    exact List.any_eq_true.mpr ⟨s, List.mem_of_mem_filter hs, decide_eq_true rfl⟩
  have hsnd1 : ((subnetsForNetwork st1 n.id).map Subnet.id).Nodup := by
    have hsub3 : List.Sublist (subnetsForNetwork st1 n.id) st.subnets := by
      unfold subnetsForNetwork
      rw [f1.2.1]
      exact List.filter_sublist _
    exact (hsub3.map Subnet.id).nodup hsnd
  obtain ⟨hs1, hsmem⟩ := deleteSubnets_ok_of (subnetsForNetwork st1 n.id) st1 hsex hsnd1
  cases hS : deleteSubnets (subnetsForNetwork st1 n.id) st1 with
  | mk e2 st2 =>
  rw [hS] at hs1 hsmem
  dsimp only at hs1 hsmem
  subst hs1
  have f2 := deleteSubnets_snd_fields (subnetsForNetwork st1 n.id) st1
  rw [hS] at f2
  dsimp only at f2
  -- network deletion
  have hnmem : n ∈ st.networks := by
    unfold getNetwork at hres
    cases hfind : st.networks.find? (fun m => decide (m.id = nid)) with
    | none => rw [hfind] at hres; exact Except.noConfusion hres
    | some m =>
      rw [hfind] at hres
      have hmn := Except.ok.inj hres
      subst hmn
      exact List.mem_of_find?_eq_some hfind
  have hnany : st2.networks.any (fun m => decide (m.id = n.id)) = true := by
    rw [f2.1, f1.1]
    exact List.any_eq_true.mpr ⟨n, hnmem, decide_eq_true rfl⟩
  have hNet := deleteNetwork_eq_ok hnany
  obtain ⟨st3, hDN⟩ : ∃ s, deleteNetwork n.id st2 = .ok s := ⟨_, hNet⟩
  have h3 := deleteNetwork_ok hDN
  have h3n : st3.networks =
      st2.networks.filter (fun m => decide (¬ m.id = n.id)) := by rw [h3]
  have h3p : st3.ports = st2.ports := by rw [h3]
  have h3r : st3.routers = st2.routers := by rw [h3]
  have h3s : st3.subnets = st2.subnets := by rw [h3]
  -- garbage collection
  have hrt3 : ∀ q ∈ routerPortsOf st n.id,
      st3.routers.any (fun r => decide (r.id = q.deviceId)) = true := by
    intro q hq
    rw [h3r, f2.2.2, f1.2.2]
    exact hrt q hq
  have hg1 := gcRouters_fst_none (routerPortsOf st n.id) st3 hdnd hrt3
  cases hG : gcRouters (routerPortsOf st n.id) st3 with
  | mk e4 stF =>
  rw [hG] at hg1
  dsimp only at hg1
  subst hg1
  have hchar := gcRouters_ok_routers (routerPortsOf st n.id) st3 stF
    (routerPortsOf_owner st n.id) hG
  have fG := gcRouters_snd_nets_subs (routerPortsOf st n.id) st3
  rw [hG] at fG
  dsimp only at fG
  -- the run itself
  have hrun : teardown none (some nid) st = (none, stF) := by
    simp only [teardown, resolveTarget]
    rw [hres]
    dsimp only
    simp only [teardownNet, hnova, Bool.false_eq_true, if_false]
    rw [hD]
    dsimp only
    rw [hS]
    dsimp only
    rw [hDN]
    dsimp only
    exact hG
  rw [hrun]
  dsimp only
  refine ⟨rfl, ?_, ?_, ?_⟩
  · -- the network is gone
    intro m hm
    rw [fG.1, h3n] at hm
    exact of_decide_eq_true (List.mem_filter.mp hm).2
  · -- its subnets are gone
    intro s hs hsn x hx
    rw [fG.2, h3s] at hx
    obtain ⟨-, hall⟩ := (hsmem x).mp hx
    refine hall s ?_
    unfold subnetsForNetwork
    rw [f1.2.1]
    exact List.mem_filter.mpr ⟨hs, decide_eq_true hsn⟩
  · -- uniquely-owned routers are gone
    intro r hr hexp huniq r' hr'
    intro hcon
    rw [hchar] at hr'
    obtain ⟨hr'3, hcond⟩ := List.mem_filter.mp hr'
    obtain ⟨p₀, hp₀mem, hp₀dev, hp₀own, hp₀net⟩ := hexp
    have hp₀l : p₀ ∈ routerPortsOf st n.id := mem_routerPortsOf hp₀mem hp₀net hp₀own
    have hanyl : (routerPortsOf st n.id).any
        (fun q => decide (q.deviceId = r'.id)) = true := by
      refine List.any_eq_true.mpr ⟨p₀, hp₀l, decide_eq_true ?_⟩
      rw [hp₀dev, hcon]
    have hIPe : interfacePortsOf st3 r'.id = [] := by
      rw [interfacePortsOf_def, h3p, f2.2.1, List.filter_eq_nil_iff]
      intro a ha hpa
      obtain ⟨hadev, haown⟩ := of_decide_eq_true hpa
      obtain ⟨hamem, hanot⟩ := (hdmem a).mp ha
      have hanet : a.networkId = n.id := huniq a hamem (by rw [hadev, hcon]) haown
      exact hanot a (mem_routerPortsOf hamem hanet haown) rfl
    rw [hanyl, decide_eq_true hIPe] at hcond
    exact Bool.noConfusion hcond

/-- **C5** (witness): a concrete successful teardown — network, subnet and
uniquely-owned router all absent afterwards. -/
theorem C5_teardown_success_witness :
    (teardown none (some "n5") singleRouterSt).1 = none ∧
      (∀ m ∈ ((teardown none (some "n5") singleRouterSt).2).networks, ¬ m.id = "n5") ∧
      (∀ s ∈ singleRouterSt.subnets, s.networkId = "n5" →
        ∀ x ∈ ((teardown none (some "n5") singleRouterSt).2).subnets, ¬ x.id = s.id) ∧
      (∀ r ∈ singleRouterSt.routers,
        (∃ p ∈ singleRouterSt.ports, p.deviceId = r.id ∧
          p.deviceOwner = routerInterfaceOwner ∧ p.networkId = "n5") →
        (∀ q ∈ singleRouterSt.ports, q.deviceId = r.id →
          q.deviceOwner = routerInterfaceOwner → q.networkId = "n5") →
        ∀ r' ∈ ((teardown none (some "n5") singleRouterSt).2).routers, ¬ r'.id = r.id) :=
  C5_teardown_success_amended singleRouterSt "n5"
    ⟨"n5", "net5", some 7, "ph", "proj", ["s5"]⟩
    rfl (by decide) (by decide) (by decide) (by decide) (by decide)

end ChiOperator
